import Mathlib

/-!
Verification development for the caissify puzzle engine
(`chess_lesson_engine`): a shallow embedding, in Lean 4, of the
difficulty estimator (`chess_utils.py`), the evaluation cache
(`cache.py`), the example selector (`example_selector.py`), the lesson
builder (`lesson_builder.py`), the data-model post-initialisation hooks
(`models.py`) and the content validity check (`content_generator.py`),
together with theorems about them.

Modelling conventions:
* Python floats are modelled as `Rat` (exact rationals); wall-clock
  timestamps are modelled as integer ticks (`Int`).
* Python dicts are modelled as association lists with the dict update /
  delete discipline (`dict_insert`, `dict_erase`, `dict_lookup`).
* Python string helpers (`str.strip`, `str.lower`, substring test) are
  re-implemented on `List Char` so that all definitions evaluate inside
  the kernel.
* External collaborators (the Stockfish oracle, the AI text generator,
  the puzzle repository) are passed in as function / list parameters,
  exactly at the boundary where the source calls them.
-/

namespace CaissifyEngine

/-! ## Python string helpers -/

/-- `str.strip()` on the character list: drop whitespace from both ends. -/
def py_strip_chars (cs : List Char) : List Char :=
  ((cs.dropWhile Char.isWhitespace).reverse.dropWhile Char.isWhitespace).reverse

/-- Model of Python `str.strip()`. -/
def py_strip (s : String) : String :=
  ⟨py_strip_chars s.data⟩

/-- Model of Python `str.lower()` (ASCII case folding). -/
def py_lower (s : String) : String :=
  ⟨s.data.map Char.toLower⟩

/-- Whether `needle` occurs at the head of `hay`. -/
def chars_starts_with : List Char → List Char → Bool
  | [], _ => true
  | _ :: _, [] => false
  | a :: as, b :: bs => a = b && chars_starts_with as bs

/-- Model of Python `needle in hay` on strings (substring occurrence). -/
def chars_contains_sub (hay needle : List Char) : Bool :=
  match hay with
  | [] => chars_starts_with needle []
  | _ :: rest => chars_starts_with needle hay || chars_contains_sub rest needle

/-- Python truthiness of an optional string: `None` and `""` are falsy. -/
def py_truthy_opt : Option String → Bool
  | none => false
  | some s => s ≠ ""

/-! ## Difficulty estimator (`chess_utils.py`, `estimate_difficulty`)

The evaluation oracle is the external Stockfish engine.  The probe into
the evaluation pathway (`evaluate_position(fen, time_limit, min_depth,
multipv)`) is modelled by a function parameter
`evalFn : String → Rat → Nat → Nat → Option (Option Int)`:
`evalFn fen time depth multipv = none` models the call raising, and
`some mv` models a normal return whose white-perspective score is `mv`
(itself optional, as in the source).  Note that a function parameter is
by construction a non-recursive entry point: it cannot call back into
`estimate_difficulty`, hence cannot trigger another uniqueness probe. -/

/-- `python-chess` score object, reduced to the projections the source
reads: `is_mate()` and `white().mate()` (`chess_utils.py:132-133`). -/
structure ScoreObj where
  is_mate : Bool
  mate : Option Int
deriving DecidableEq

/-- Shape of the `info` argument of `estimate_difficulty`
(`chess_utils.py:114-122`): a dict carrying a `"score"` entry (whose
value may be `None`), a bare score object (`hasattr(info, "is_mate")`),
or anything else (the "unexpected format" fallback). -/
inductive EvalInfo
  | dictWithScore (s : Option ScoreObj)
  | scoreObject (s : ScoreObj)
  | other
deriving DecidableEq

/-- A parsed chess position (`chess.Board(fen)`), reduced to the two
observations the estimator makes: `is_checkmate()` and, for the probe,
the FEN of each position reached by one legal move
(`board.push(move); board.fen()`, `chess_utils.py:152-157`). -/
structure Position where
  is_checkmate : Bool
  reply_fens : List String
deriving DecidableEq

/-- The `score_obj` extracted from `info` (`chess_utils.py:115-119`). -/
def info_score_obj : EvalInfo → Option ScoreObj
  | .dictWithScore s => s
  | .scoreObject s => some s
  | .other => none

/-- Whether the evaluation reports a forced mate
(`if score_obj and score_obj.is_mate()`, `chess_utils.py:132`). -/
def info_is_mate (info : EvalInfo) : Bool :=
  match info_score_obj info with
  | some so => so.is_mate
  | none => false

/-- Score-only banding used when the `info` shape is unexpected
(`chess_utils.py:123-130`). -/
def score_band_fallback (score : Int) : String :=
  if 1000 < score.natAbs then "beginner"
  else if 500 < score.natAbs ∧ score.natAbs ≤ 1000 then "intermediate"
  else if 200 < score.natAbs ∧ score.natAbs ≤ 500 then "intermediate"
  else "advanced"

/-- One probe call of the uniqueness scan: `mv_score is not None and
mv_score > 1000` (`chess_utils.py:158`). -/
def is_winning_probe : Option Int → Bool
  | some s => 1000 < s
  | none => false

/-- The probe loop over all legal replies (`chess_utils.py:152-159`):
each reply is evaluated at the fixed cheap budget `time_limit=1.0,
min_depth=10, multipv=1`; `none` models an exception escaping from some
`evaluate_position` call (which aborts the whole `try` block). -/
def count_winning_moves (evalFn : String → Rat → Nat → Nat → Option (Option Int)) :
    List String → Option Nat
  | [] => some 0
  | f :: fs => do
      let mv ← evalFn f 1 10 1
      let n ← count_winning_moves evalFn fs
      pure (n + if is_winning_probe mv then 1 else 0)

/-- The "winning study" heuristics of `estimate_difficulty` for
evaluations with no forced mate (`chess_utils.py:145-173`). -/
def estimate_no_mate (score : Int) (fen : Option Position)
    (evalFn : String → Rat → Nat → Nat → Option (Option Int)) : String × Bool :=
  if 1000 < score.natAbs then
    match fen with
    | some b =>
        match count_winning_moves evalFn b.reply_fens with
        | some w =>
            if w = 1 then ("advanced", false)
            else if w ≤ 3 then ("intermediate", false)
            else ("beginner", false)
        | none => ("beginner", false)
    | none => ("beginner", false)
  else if 500 < score.natAbs ∧ score.natAbs ≤ 1000 then ("intermediate", false)
  else if 200 < score.natAbs ∧ score.natAbs ≤ 500 then ("intermediate", false)
  else ("advanced", false)

/-- The forced-mate branch (`chess_utils.py:132-144`), entered when a
truthy score object reports `is_mate()`. -/
def estimate_with_score_obj (score : Int) (so : ScoreObj) (fen : Option Position)
    (evalFn : String → Rat → Nat → Nat → Option (Option Int)) : String × Bool :=
  if so.is_mate then
    match so.mate with
    | some mate_in =>
        if mate_in.natAbs = 1 then
          if 500 < score.natAbs then ("beginner", false) else ("intermediate", false)
        else if mate_in.natAbs = 2 then ("intermediate", false)
        else ("advanced", false)
    | none => ("advanced", false)
  else estimate_no_mate score fen evalFn

/-- `estimate_difficulty` after the initial checkmate test
(`chess_utils.py:114-173`). -/
def estimate_core (score : Int) (info : EvalInfo) (fen : Option Position)
    (evalFn : String → Rat → Nat → Nat → Option (Option Int)) : String × Bool :=
  match info with
  | .other => (score_band_fallback score, true)
  | .dictWithScore so? =>
      match so? with
      | some so => estimate_with_score_obj score so fen evalFn
      | none => estimate_no_mate score fen evalFn
  | .scoreObject so => estimate_with_score_obj score so fen evalFn

/-- `estimate_difficulty(score, info, fen)` (`chess_utils.py:105-173`).
The second component records whether `logger.warning` was called (the
unexpected-`info`-format warning is the only warning in the function). -/
def estimate_difficulty (score : Int) (info : EvalInfo) (fen : Option Position)
    (evalFn : String → Rat → Nat → Nat → Option (Option Int)) : String × Bool :=
  if (match fen with | some b => b.is_checkmate | none => false) then
    ("beginner", false)
  else estimate_core score info fen evalFn

/-- The ordinal scale beginner < intermediate < advanced of the spec. -/
def difficulty_rank : String → Nat
  | "intermediate" => 1
  | "advanced" => 2
  | _ => 0

/-- A reply is "decisive" in the sense of the decisive-advantage
threshold: the absolute value of its probe score exceeds 1000
(the threshold used for the position itself at `chess_utils.py:146`). -/
def is_decisive_reply_abs (evalFn : String → Rat → Nat → Nat → Option (Option Int))
    (f : String) : Bool :=
  match (evalFn f 1 10 1).join with
  | some s => 1000 < s.natAbs
  | none => false

/-! ## Evaluation cache (`cache.py`, `PositionCache`)

Wall-clock time (`time.time()`) is modelled by an explicit integer
`now` argument threaded through `get`/`set`.  The MD5 digest of
`"{fen}|{time_limit}|{min_depth}|{multipv}"` is modelled by the key
quadruple itself (the digest is a deterministic function of it, and the
source only ever compares keys for equality).  The dict `self._cache`
is an association list manipulated with the dict update/delete
discipline.  `_save_cache` performs I/O only and does not change the
in-memory state, so it has no counterpart here. -/

/-- The cache key: the four evaluation parameters
(`PositionCache._generate_key`, `cache.py:52-55`). -/
structure CacheKey where
  fen : String
  time_limit : Rat
  min_depth : Int
  multipv : Int
deriving DecidableEq

/-- A value of the `info` dict attached to an evaluation result, as far
as serialization is concerned (`cache.py:81-94`): a principal-variation
move list (each move rendered by `str`), a JSON-serializable value, or a
non-serializable value together with its `str` rendering. -/
inductive PyVal
  | pvMoves (moves : List String)
  | jsonOk (v : String)
  | jsonBad (v : String)
deriving DecidableEq

/-- Building the `serializable_info` copy (`cache.py:81-94`): the
`"pv"` entry keeps its move list (already rendered as strings), the
`"score"` entry is skipped, non-serializable values are stringified. -/
def serialize_item (kv : String × PyVal) : Option (String × PyVal) :=
  if kv.1 = "pv" then some kv
  else if kv.1 = "score" then none
  else
    match kv.2 with
    | .jsonBad v => some (kv.1, .jsonOk v)
    | v => some (kv.1, v)

/-- The serializable copy of a whole `info` dict (`cache.py:81-94`). -/
def serialize_info (info : List (String × PyVal)) : List (String × PyVal) :=
  info.filterMap serialize_item

/-- One stored cache entry (`cache.py:96-102`). -/
structure CacheEntry where
  fen : String
  score : Option Int
  mate : Option Int
  info : List (String × PyVal)
  timestamp : Int
deriving DecidableEq

/-- Python dict lookup on an association list. -/
def dict_lookup {K V : Type} [DecidableEq K] (k : K) : List (K × V) → Option V
  | [] => none
  | (k2, v) :: rest => if k2 = k then some v else dict_lookup k rest

/-- Python dict assignment: replace the binding in place, or append. -/
def dict_insert {K V : Type} [DecidableEq K] (k : K) (v : V) :
    List (K × V) → List (K × V)
  | [] => [(k, v)]
  | (k2, v2) :: rest =>
      if k2 = k then (k, v) :: rest else (k2, v2) :: dict_insert k v rest

/-- Python `del d[k]`: remove the binding. -/
def dict_erase {K V : Type} [DecidableEq K] (k : K) :
    List (K × V) → List (K × V)
  | [] => []
  | (k2, v2) :: rest => if k2 = k then rest else (k2, v2) :: dict_erase k rest

/-- In-memory state of `PositionCache` (`cache.py:16-21`). -/
structure PositionCache where
  cache : List (CacheKey × CacheEntry)
  hits : Nat
  misses : Nat
  max_age_seconds : Int
deriving DecidableEq

/-- `PositionCache._generate_key` (`cache.py:52-55`), with the MD5
digest modelled by the injectively-encoded quadruple itself. -/
def generate_key (fen : String) (time_limit : Rat) (min_depth multipv : Int) :
    CacheKey :=
  ⟨fen, time_limit, min_depth, multipv⟩

/-- `PositionCache.get` (`cache.py:57-74`): returns the cached triple
and the successor state (hit/miss counters, expired-entry removal). -/
def PositionCache.get (c : PositionCache) (fen : String) (time_limit : Rat)
    (min_depth multipv : Int) (now : Int) :
    Option (Option Int × Option Int × List (String × PyVal)) × PositionCache :=
  let key := generate_key fen time_limit min_depth multipv
  match dict_lookup key c.cache with
  | some entry =>
      if now - entry.timestamp < c.max_age_seconds then
        (some (entry.score, entry.mate, entry.info), { c with hits := c.hits + 1 })
      else
        (none, { c with cache := dict_erase key c.cache, misses := c.misses + 1 })
  | none => (none, { c with misses := c.misses + 1 })

/-- `PositionCache.set` (`cache.py:76-108`): store the serializable
copy under the digest key (the periodic `_save_cache` is pure I/O). -/
def PositionCache.set (c : PositionCache) (fen : String) (time_limit : Rat)
    (min_depth multipv : Int) (score mate : Option Int)
    (info : List (String × PyVal)) (now : Int) : PositionCache :=
  let key := generate_key fen time_limit min_depth multipv
  let entry : CacheEntry := ⟨fen, score, mate, serialize_info info, now⟩
  { c with cache := dict_insert key entry c.cache }

/-- The statistics reported by `PositionCache.get_stats`
(`cache.py:110-121`); the cache-file size is I/O and is omitted. -/
structure CacheStats where
  hits : Nat
  misses : Nat
  hit_rate : Rat
  cached_positions : Nat
deriving DecidableEq

/-- `PositionCache.get_stats` (`cache.py:110-121`). -/
def PositionCache.get_stats (c : PositionCache) : CacheStats :=
  let total := c.hits + c.misses
  { hits := c.hits
    misses := c.misses
    hit_rate := if 0 < total then mkRat (c.hits * 100) total else 0
    cached_positions := c.cache.length }

/-! ## Data models (`models.py`) -/

/-- `StepType` (`models.py:12-18`). -/
inductive StepType
  | introduction
  | example
  | solution
  | summary
  | analysis
deriving DecidableEq

/-- The `.value` string of a `StepType` member. -/
def step_type_value : StepType → String
  | .introduction => "introduction"
  | .example => "example"
  | .solution => "solution"
  | .summary => "summary"
  | .analysis => "analysis"

/-- `DifficultyLevel` (`models.py:21-26`). -/
inductive DifficultyLevel
  | beginner
  | intermediate
  | advanced
  | expert
deriving DecidableEq

/-- `PuzzleExample` (`models.py:37-58`). -/
structure PuzzleExample where
  id : String
  fen : String
  solution_moves : List String
  themes : List String
  rating : Int
  quality_score : Rat
  explanation : String := ""
  moves : Option String := none
  pgn : Option String := none
  game_url : Option String := none
  popularity : Option Int := none
  nb_plays : Option Int := none
  primary_theme : Option String := none
  difficulty_level : Option String := none
  position_hash : Option String := none
deriving DecidableEq

/-- `PuzzleExample.__post_init__` (`models.py:60-66`): derive the
primary theme from the first theme when it is unset (falsy), and fill
in a default explanation using `self.primary_theme or "tactical"`. -/
def PuzzleExample.post_init (p : PuzzleExample) : PuzzleExample :=
  let p1 :=
    match p.themes, py_truthy_opt p.primary_theme with
    | t :: _, false => { p with primary_theme := some t }
    | _, _ => p
  if p1.explanation = "" then
    { p1 with explanation :=
        "A " ++ (match p1.primary_theme with
                 | some s => if s = "" then "tactical" else s
                 | none => "tactical") ++ " puzzle rated " ++ toString p1.rating }
  else p1

/-- `LessonStep` (`models.py:69-87`), restricted to the fields this
development reads (`id`, per-step `key_points` etc. are carried opaque
by the source and never branched on).  The source field `example` is
called `example_ref` here because `example` is a Lean keyword. -/
structure LessonStep where
  step_type : StepType
  title : String
  content : String
  step_number : Nat := 0
  position : Option String := none
  example_ref : Option PuzzleExample := none
  solution_moves : Option (List String) := none
  order : Nat := 0
deriving DecidableEq

/-- `LessonMetadata` (`models.py:95-117`), restricted to the fields set
by `LessonBuilder._create_lesson_metadata`. -/
structure LessonMetadata where
  example_count : Nat
  avg_rating : Rat
  avg_quality_score : Rat
  estimated_duration_minutes : Nat
  themes_covered : List String
  includes_analysis : Bool
  progressive_difficulty : Bool
  min_rating : Option Int := none
  max_rating : Option Int := none
deriving DecidableEq

/-- `LessonGenerationConfig` (`models.py:190-220`), restricted to the
fields the selector and builder read. -/
structure LessonGenerationConfig where
  theme : String
  difficulty : DifficultyLevel := .intermediate
  example_count : Nat := 5
  min_quality_threshold : Rat := mkRat 7 10
  enable_progressive_difficulty : Bool := true
  include_analysis : Bool := true
  progressive_difficulty : Bool := true
  min_rating : Option Int := none
  max_rating : Option Int := none
deriving DecidableEq

/-- `ChessLesson` (`models.py:128-147`), restricted to the fields the
builder sets and `__post_init__` touches. -/
structure ChessLesson where
  title : String
  theme : String
  difficulty : DifficultyLevel
  introduction : String
  steps : List LessonStep
  summary : String
  metadata : LessonMetadata
  learning_objectives : List String := []
deriving DecidableEq

/-- The renumbering loop of `ChessLesson.__post_init__`
(`models.py:154-157`): `for i, step in enumerate(self.steps, 1)`, the
step number is forced to `i` whenever it differs. -/
def renumber_steps : Nat → List LessonStep → List LessonStep
  | _, [] => []
  | i, s :: rest =>
      (if s.step_number ≠ i then { s with step_number := i } else s) ::
        renumber_steps (i + 1) rest

/-- `ChessLesson.__post_init__` (`models.py:149-165`): renumber the
steps consecutively from 1 and default the learning objectives. -/
def ChessLesson.post_init (l : ChessLesson) : ChessLesson :=
  let l2 := { l with steps := renumber_steps 1 l.steps }
  if l2.learning_objectives = [] then
    { l2 with learning_objectives :=
        ["Understand " ++ l2.theme ++ " tactical patterns",
         "Recognize " ++ l2.theme ++ " opportunities in games",
         "Execute " ++ l2.theme ++ " tactics accurately"] }
  else l2

/-! ## Example selector (`example_selector.py`) -/

/-- The per-tier rating table `self.difficulty_ranges`
(`example_selector.py:37-42`), as `(min, max, optimal)`. -/
def difficulty_ranges : DifficultyLevel → Int × Int × Int
  | .beginner => (600, 1200, 900)
  | .intermediate => (1200, 1800, 1500)
  | .advanced => (1800, 2400, 2100)
  | .expert => (2400, 3000, 2700)

/-- `ExampleSelector._calculate_selection_score`
(`example_selector.py:262-302`), with the fixed weights
0.4 / 0.3 / 0.2 / 0.1 (`example_selector.py:29-34`).  Note that a
popularity of `0` is falsy in Python, so it earns no diversity bonus. -/
def calculate_selection_score (puzzle : PuzzleExample)
    (config : LessonGenerationConfig) : Rat :=
  let w_quality : Rat := mkRat 4 10
  let w_rating : Rat := mkRat 3 10
  let w_theme : Rat := mkRat 2 10
  let w_diversity : Rat := mkRat 1 10
  let score := puzzle.quality_score * w_quality
  let dr := difficulty_ranges config.difficulty
  let optimal := dr.2.2
  let rating_distance : Rat := ((puzzle.rating - optimal).natAbs : Rat)
  let max_distance : Rat := ((max (optimal - dr.1) (dr.2.1 - optimal)) : Rat)
  let rating_appropriateness := 1 - rating_distance / max_distance
  let score := score + rating_appropriateness * w_rating
  let theme_relevance : Rat :=
    if puzzle.primary_theme = some config.theme then 1
    else if config.theme ∈ puzzle.themes then 1
    else mkRat 1 2
  let score := score + theme_relevance * w_theme
  match puzzle.popularity with
  | some pop =>
      if pop ≠ 0 then
        let normalized_popularity := min ((pop : Rat) / 1000) 1
        score + (1 - normalized_popularity) * w_diversity
      else score
  | none => score

/-- The stable Python `list.sort(key=score, reverse=True)` over
candidates (`example_selector.py:196,242,251`). -/
def sort_by_score_desc (config : LessonGenerationConfig)
    (l : List PuzzleExample) : List PuzzleExample :=
  l.mergeSort fun a b =>
    decide (calculate_selection_score b config ≤ calculate_selection_score a config)

/-- The stable Python `sorted(candidates, key=lambda x: x.rating)`
(`example_selector.py:206,258`). -/
def sort_by_rating (l : List PuzzleExample) : List PuzzleExample :=
  l.mergeSort fun a b => decide (a.rating ≤ b.rating)

/-- `ExampleSelector._select_best_examples`
(`example_selector.py:183-199`): flat top-K by score. -/
def select_best_examples (config : LessonGenerationConfig)
    (candidates : List PuzzleExample) : List PuzzleExample :=
  if candidates.length ≤ config.example_count then candidates
  else (sort_by_score_desc config candidates).take config.example_count

/-- The bucket position of one candidate
(`example_selector.py:221-227`): the fraction of the tier rating span,
compared against 0.33 / 0.67. -/
def rating_position (rating min_rating max_rating : Int) : Rat :=
  ((rating - min_rating : Int) : Rat) / ((max_rating - min_rating : Int) : Rat)

/-- Membership in the `"easy"` bucket (`rating_position < 0.33`). -/
def in_easy_bucket (min_rating max_rating : Int) (c : PuzzleExample) : Bool :=
  decide (rating_position c.rating min_rating max_rating < mkRat 33 100)

/-- Membership in the `"medium"` bucket (`0.33 ≤ rating_position < 0.67`). -/
def in_medium_bucket (min_rating max_rating : Int) (c : PuzzleExample) : Bool :=
  !in_easy_bucket min_rating max_rating c &&
    decide (rating_position c.rating min_rating max_rating < mkRat 67 100)

/-- Membership in the `"hard"` bucket (the remaining candidates). -/
def in_hard_bucket (min_rating max_rating : Int) (c : PuzzleExample) : Bool :=
  !in_easy_bucket min_rating max_rating c &&
    !decide (rating_position c.rating min_rating max_rating < mkRat 67 100)

/-- The per-bucket selection target (`example_selector.py:230-237`):
`examples_per_bucket + (1 if i < remainder else 0)` for bucket index
`i`, with `examples_per_bucket = requested // 3` and
`remainder = requested % 3`. -/
def bucket_target (requested : Nat) (i : Nat) : Nat :=
  requested / 3 + (if i < requested % 3 then 1 else 0)

/-- Selection from one bucket (`example_selector.py:236-245`): when the
bucket is non-empty, take the top-scoring `bucket_target` items. -/
def pick_from_bucket (config : LessonGenerationConfig) (i : Nat)
    (bucket : List PuzzleExample) : List PuzzleExample :=
  if bucket = [] then []
  else (sort_by_score_desc config bucket).take (bucket_target config.example_count i)

/-- The per-bucket selection loop of `_select_progressive_examples`
(`example_selector.py:233-245`): `selected` after the three buckets
(`"easy"`, `"medium"`, `"hard"` in dict-insertion order) contributed. -/
def progressive_base (config : LessonGenerationConfig)
    (min_rating max_rating : Int)
    (candidates : List PuzzleExample) : List PuzzleExample :=
  pick_from_bucket config 0 (candidates.filter (in_easy_bucket min_rating max_rating)) ++
    pick_from_bucket config 1 (candidates.filter (in_medium_bucket min_rating max_rating)) ++
    pick_from_bucket config 2 (candidates.filter (in_hard_bucket min_rating max_rating))

/-- The shortfall fill of `_select_progressive_examples`
(`example_selector.py:247-255`): top remaining candidates
(`c not in selected`, by dataclass structural equality) are appended. -/
def progressive_filled (config : LessonGenerationConfig)
    (min_rating max_rating : Int)
    (candidates : List PuzzleExample) : List PuzzleExample :=
  let selected := progressive_base config min_rating max_rating candidates
  if selected.length < config.example_count then
    let remaining := candidates.filter fun c => decide (c ∉ selected)
    selected ++ (sort_by_score_desc config remaining).take
      (config.example_count - selected.length)
  else selected

/-- `ExampleSelector._select_progressive_examples`
(`example_selector.py:201-260`).  `min_rating`/`max_rating` are the
tier defaults of `difficulty_range` passed in by `select_examples`. -/
def select_progressive_examples (config : LessonGenerationConfig)
    (min_rating max_rating : Int)
    (candidates : List PuzzleExample) : List PuzzleExample :=
  if candidates.length ≤ config.example_count then sort_by_rating candidates
  else
    (sort_by_rating (progressive_filled config min_rating max_rating candidates)).take
      config.example_count

/-! ## Content generator (`content_generator.py`)

The external text-generation service is a collaborator: its availability
and raw completion are passed in as parameters of
`generate_ai_content`.  An outer `none` models `get_completion`
raising; `some none` models a falsy (absent) response. -/

/-- The refusal/failure phrase list of `ContentGenerator.validate_content`
(`content_generator.py:513-516`). -/
def problematic_phrases : List String :=
  ["I cannot", "I\x27m sorry", "As an AI", "I don\x27t have access",
   "Content generation failed", "Error", "Failed to generate"]

/-- `ContentGenerator.validate_content` (`content_generator.py:507-523`):
falsy or too-short content fails, as does content containing any
problematic phrase (case-insensitively). -/
def validate_content (content : String) : Bool :=
  if content = "" ∨ (py_strip content).length < 20 then false
  else if problematic_phrases.any
      (fun phrase => chars_contains_sub (py_lower content).data (py_lower phrase).data)
    then false
  else true

/-- `ContentGenerator._generate_ai_content` (`content_generator.py:443-467`).
`providers_available` models `ai_client.get_available_providers()` being
non-empty; `response` is the completion (`none` = the call raised,
`some none` = falsy response). -/
def generate_ai_content (providers_available : Bool)
    (response : Option (Option String)) : String :=
  if providers_available = false then "AI-generated content not available."
  else
    match response with
    | none => "Content generation error."
    | some none => "Content generation failed."
    | some (some r) =>
        if r ≠ "" ∧ 20 < (py_strip r).length then py_strip r
        else "Content generation failed."

/-- `ContentGenerator._fallback_step_content` (`content_generator.py:498-505`):
the deterministic fallback template used when step-content generation
raises. -/
def fallback_step_content (ex : PuzzleExample) (st : StepType) : String :=
  match st with
  | .example => "Analyze this position and find the best move. Rating: " ++
      toString ex.rating
  | .solution => "The solution is: " ++
      String.intercalate " " (ex.solution_moves.take 2)
  | _ => "Content for " ++ step_type_value st ++ " step."

/-! ## Lesson builder (`lesson_builder.py`)

Step-content generation (`self.content_generator.generate_step_content`)
is a collaborator, passed in as `gen : PuzzleExample → StepType → String`. -/

/-- The Python truthiness test on the side-to-move field of a FEN used
at `lesson_builder.py:171`: `'b' in example.fen.split()[1]`. -/
def fen_black_to_move (fen : String) : Bool :=
  (((fen.data.splitOn ' ').getD 1 []).contains 'b')

/-- `LessonBuilder._create_example_step` (`lesson_builder.py:163-181`). -/
def create_example_step (gen : PuzzleExample → StepType → String)
    (ex : PuzzleExample) (index : Nat)
    (config : LessonGenerationConfig) : LessonStep :=
  { step_type := .example
    title := "Example " ++ toString (index + 1) ++ ": Find the Best Move"
    content :=
      if config.include_analysis then gen ex .example
      else "Find the best move for " ++
        (if fen_black_to_move ex.fen then "Black" else "White") ++
        " in this position."
    position := some ex.fen
    example_ref := some ex
    order := if config.include_analysis then index * 3 + 1 else index * 2 + 1 }

/-- `LessonBuilder._create_solution_step` (`lesson_builder.py:183-204`). -/
def create_solution_step (gen : PuzzleExample → StepType → String)
    (ex : PuzzleExample) (index : Nat)
    (config : LessonGenerationConfig) : LessonStep :=
  { step_type := .solution
    title := "Example " ++ toString (index + 1) ++ ": Solution"
    content :=
      if config.include_analysis then gen ex .solution
      else "The solution is: " ++
        String.intercalate " " (ex.solution_moves.take 3)
    position := some ex.fen
    example_ref := some ex
    solution_moves := some ex.solution_moves
    order := if config.include_analysis then index * 3 + 2 else index * 2 + 2 }

/-- `LessonBuilder._create_analysis_step` (`lesson_builder.py:206-222`). -/
def create_analysis_step (gen : PuzzleExample → StepType → String)
    (ex : PuzzleExample) (index : Nat)
    (_config : LessonGenerationConfig) : LessonStep :=
  { step_type := .analysis
    title := "Example " ++ toString (index + 1) ++ ": Analysis"
    content := gen ex .analysis
    position := some ex.fen
    example_ref := some ex
    solution_moves := some ex.solution_moves
    order := index * 3 + 3 }

/-- The `for i, example in enumerate(examples)` loop of
`LessonBuilder._build_lesson_steps` (`lesson_builder.py:133-161`),
with the running index made explicit. -/
def build_steps_from (gen : PuzzleExample → StepType → String)
    (config : LessonGenerationConfig) :
    Nat → List PuzzleExample → List LessonStep
  | _, [] => []
  | i, ex :: rest =>
      (if config.include_analysis then
        [create_example_step gen ex i config,
         create_solution_step gen ex i config,
         create_analysis_step gen ex i config]
      else
        [create_example_step gen ex i config,
         create_solution_step gen ex i config]) ++
        build_steps_from gen config (i + 1) rest

/-- `LessonBuilder._build_lesson_steps` (`lesson_builder.py:133-161`). -/
def build_lesson_steps (gen : PuzzleExample → StepType → String)
    (config : LessonGenerationConfig)
    (examples : List PuzzleExample) : List LessonStep :=
  build_steps_from gen config 0 examples

/-- Minimum of a list of ratings (`min(ratings)` at
`lesson_builder.py:247`, guarded by `if ratings`). -/
def ratings_min : List Int → Int
  | [] => 1500
  | [r] => r
  | r :: rest => min r (ratings_min rest)

/-- Maximum of a list of ratings (`max(ratings)` at
`lesson_builder.py:248`, guarded by `if ratings`). -/
def ratings_max : List Int → Int
  | [] => 1500
  | [r] => r
  | r :: rest => max r (ratings_max rest)

/-- `LessonBuilder._create_lesson_metadata` (`lesson_builder.py:224-255`).
`themes_covered` is `list(set(...))`; a Python set iterates in an
unspecified order, modelled here as dedup of the concatenation. -/
def create_lesson_metadata (config : LessonGenerationConfig)
    (examples : List PuzzleExample) : LessonMetadata :=
  let ratings := examples.map (·.rating)
  let quality_scores := examples.map (·.quality_score)
  let base_time : Nat := if config.include_analysis then 8 else 5
  { example_count := examples.length
    avg_rating :=
      if ratings = [] then 1500
      else ((ratings.foldr (· + ·) 0 : Int) : Rat) / (ratings.length : Rat)
    min_rating := some (ratings_min ratings)
    max_rating := some (ratings_max ratings)
    avg_quality_score :=
      if quality_scores = [] then mkRat 1 2
      else (quality_scores.foldr (· + ·) 0) / (quality_scores.length : Rat)
    themes_covered := (examples.foldr (fun e acc => e.themes ++ acc) []).dedup
    estimated_duration_minutes := examples.length * base_time
    includes_analysis := config.include_analysis
    progressive_difficulty := config.progressive_difficulty }

/-- The known-theme display names of `THEME_REGISTRY`
(`models.py:287-363`). -/
def theme_display_names : List (String × String) :=
  [("fork", "Fork Tactics"), ("pin", "Pin Tactics"),
   ("skewer", "Skewer Tactics"), ("discoveredAttack", "Discovered Attack"),
   ("mate", "Checkmate Patterns"), ("mateIn1", "Mate in One"),
   ("mateIn2", "Mate in Two"), ("sacrifice", "Tactical Sacrifices"),
   ("deflection", "Deflection Tactics"), ("attraction", "Attraction Tactics")]

/-- Python `str.title()` applied wordwise (words separated by spaces),
as used by the `get_theme_info` fallback (`models.py:366-373`). -/
def py_title_word (cs : List Char) : List Char :=
  match cs with
  | [] => []
  | c :: rest => c.toUpper :: rest.map Char.toLower

/-- `get_theme_info(theme).display_name` (`models.py:366-373`): the
registry entry, or `theme.replace('_', ' ').title()` for unknown
themes. -/
def theme_display_name (theme : String) : String :=
  match dict_lookup theme theme_display_names with
  | some d => d
  | none =>
      String.intercalate " "
        (((theme.data.map fun c => if c = '_' then ' ' else c).splitOn ' ').map
          fun w => (⟨py_title_word w⟩ : String))

/-- `LessonBuilder._generate_lesson_title` (`lesson_builder.py:257-268`). -/
def generate_lesson_title (config : LessonGenerationConfig) : String :=
  let difficulty_title :=
    match config.difficulty with
    | .beginner => "Introduction to"
    | .intermediate => "Mastering"
    | .advanced => "Advanced"
    | .expert => "Expert-Level"
  py_strip (difficulty_title ++ " " ++ theme_display_name config.theme)

/-- The fatal checks of `LessonBuilder._validate_lesson`
(`lesson_builder.py:270-296`): missing title/introduction/summary, no
steps, or a step without title, content or position raise; the
duplicate-order and metadata-count checks only log warnings. -/
def validate_lesson_ok (lesson : ChessLesson) : Bool :=
  !(lesson.title = "" || lesson.introduction = "" || lesson.summary = "") &&
    !(lesson.steps = []) &&
    lesson.steps.all fun s =>
      !(s.title = "") && !(s.content = "") && !(s.position.getD "" = "")

/-- `LessonBuilder.build_lesson` (`lesson_builder.py:31-83`).  The
selector result and the generated introduction/summary are passed in
at the collaborator boundary; `none` models the `ValueError` raised on
an empty selection or by `_validate_lesson`. -/
def build_lesson (gen : PuzzleExample → StepType → String)
    (introduction summary : String) (config : LessonGenerationConfig)
    (examples : List PuzzleExample) : Option ChessLesson :=
  if examples = [] then none
  else
    let lesson := ChessLesson.post_init
      { title := generate_lesson_title config
        theme := config.theme
        difficulty := config.difficulty
        introduction := introduction
        steps := build_lesson_steps gen config examples
        summary := summary
        metadata := create_lesson_metadata config examples }
    if validate_lesson_ok lesson then some lesson else none

/-! ## Helper lemmas -/

theorem estimate_not_checkmate (score : Int) (info : EvalInfo) (fen : Option Position)
    (evalFn : String → Rat → Nat → Nat → Option (Option Int))
    (h : ∀ b, fen = some b → b.is_checkmate = false) :
    estimate_difficulty score info fen evalFn = estimate_core score info fen evalFn := by
  unfold estimate_difficulty
  cases fen with
  | none => simp
  | some b => simp [h b rfl]

theorem estimate_core_of_score_obj (score : Int) (info : EvalInfo)
    (fen : Option Position) (evalFn : String → Rat → Nat → Nat → Option (Option Int))
    (so : ScoreObj) (hso : info_score_obj info = some so) :
    estimate_core score info fen evalFn = estimate_with_score_obj score so fen evalFn := by
  cases info with
  | other => simp [info_score_obj] at hso
  | dictWithScore s =>
      cases s with
      | none => simp [info_score_obj] at hso
      | some so2 =>
          simp only [info_score_obj, Option.some.injEq] at hso
          subst hso
          rfl
  | scoreObject s =>
      simp only [info_score_obj, Option.some.injEq] at hso
      subst hso
      rfl

theorem estimate_mate_value (score : Int) (so : ScoreObj) (fen : Option Position)
    (evalFn : String → Rat → Nat → Nat → Option (Option Int)) (m : Int)
    (hm : so.is_mate = true) (hv : so.mate = some m) :
    estimate_with_score_obj score so fen evalFn =
      (if m.natAbs = 1 then
        (if 500 < score.natAbs then "beginner" else "intermediate")
       else if m.natAbs = 2 then "intermediate" else "advanced", false) := by
  unfold estimate_with_score_obj
  rw [hm, hv]
  split_ifs <;> simp_all

theorem estimate_mate_value_fst (score : Int) (info : EvalInfo) (fen : Option Position)
    (evalFn : String → Rat → Nat → Nat → Option (Option Int))
    (so : ScoreObj) (m : Int)
    (hf : ∀ b, fen = some b → b.is_checkmate = false)
    (hi : info_score_obj info = some so)
    (hm : so.is_mate = true) (hv : so.mate = some m) :
    (estimate_difficulty score info fen evalFn).1 =
      (if m.natAbs = 1 then
        (if 500 < score.natAbs then "beginner" else "intermediate")
       else if m.natAbs = 2 then "intermediate" else "advanced") := by
  rw [estimate_not_checkmate score info fen evalFn hf,
    estimate_core_of_score_obj score info fen evalFn so hi,
    estimate_mate_value score so fen evalFn m hm hv]

/-! ## C3: progressive bin targets sum to the requested count -/

/-- C3: for every progressive selection request whose requested count is
not divisible by 3, the three per-bin targets — `requested // 3` plus
one extra for the first `requested % 3` bins — sum exactly to the
requested count. -/
theorem bucket_targets_sum (requested : Nat) (h : requested % 3 ≠ 0) :
    bucket_target requested 0 + bucket_target requested 1 +
      bucket_target requested 2 = requested := by
  have h3 := Nat.div_add_mod requested 3
  have hlt : requested % 3 < 3 := Nat.mod_lt _ (by omega)
  simp only [bucket_target]
  split_ifs <;> omega

/-- Witness for C3 at `requested = 7`. -/
theorem bucket_targets_sum_witness :
    7 % 3 ≠ 0 ∧
      bucket_target 7 0 + bucket_target 7 1 + bucket_target 7 2 = 7 :=
  ⟨by decide, bucket_targets_sum 7 (by decide)⟩

/-! ## C5: difficulty is monotonic in forced-mate distance -/

/-- C5: with the score thresholds fixed as in the source, the estimate
for a forced mate is monotonic in the absolute mate distance on the
ordinal scale beginner < intermediate < advanced: mate-in-1 gives
beginner when the absolute score exceeds the mate-1 threshold (500) and
intermediate otherwise, mate-in-2 gives intermediate, and longer mates
give advanced. -/
theorem estimate_mate_monotonic
    (s1 s2 s3 : Int) (i1 i2 i3 : EvalInfo) (f1 f2 f3 : Option Position)
    (e1 e2 e3 : String → Rat → Nat → Nat → Option (Option Int))
    (so1 so2 so3 : ScoreObj) (m1 m2 m3 : Int)
    (hf1 : ∀ b, f1 = some b → b.is_checkmate = false)
    (hf2 : ∀ b, f2 = some b → b.is_checkmate = false)
    (hf3 : ∀ b, f3 = some b → b.is_checkmate = false)
    (hi1 : info_score_obj i1 = some so1) (hm1 : so1.is_mate = true)
    (hv1 : so1.mate = some m1) (ha1 : m1.natAbs = 1)
    (hi2 : info_score_obj i2 = some so2) (hm2 : so2.is_mate = true)
    (hv2 : so2.mate = some m2) (ha2 : m2.natAbs = 2)
    (hi3 : info_score_obj i3 = some so3) (hm3 : so3.is_mate = true)
    (hv3 : so3.mate = some m3) (ha3 : 3 ≤ m3.natAbs) :
    difficulty_rank (estimate_difficulty s1 i1 f1 e1).1 ≤
      difficulty_rank (estimate_difficulty s2 i2 f2 e2).1 ∧
    difficulty_rank (estimate_difficulty s2 i2 f2 e2).1 ≤
      difficulty_rank (estimate_difficulty s3 i3 f3 e3).1 ∧
    (estimate_difficulty s1 i1 f1 e1).1 =
      (if 500 < s1.natAbs then "beginner" else "intermediate") ∧
    (estimate_difficulty s2 i2 f2 e2).1 = "intermediate" ∧
    (estimate_difficulty s3 i3 f3 e3).1 = "advanced" := by
  have h3a : ¬ m3.natAbs = 1 := by omega
  have h3b : ¬ m3.natAbs = 2 := by omega
  have d1 := estimate_mate_value_fst s1 i1 f1 e1 so1 m1 hf1 hi1 hm1 hv1
  have d2 := estimate_mate_value_fst s2 i2 f2 e2 so2 m2 hf2 hi2 hm2 hv2
  have d3 := estimate_mate_value_fst s3 i3 f3 e3 so3 m3 hf3 hi3 hm3 hv3
  rw [ha1] at d1
  rw [ha2] at d2
  simp only [h3a, h3b, if_false] at d3
  norm_num at d1 d2 d3
  refine ⟨?_, ?_, d1, d2, d3⟩
  · rw [d2]
    split_ifs at d1 <;> rw [d1] <;> decide
  · rw [d2, d3]
    decide

/-- Witness for C5: mate in 1 at score 9999, mate in −2, mate in 5. -/
theorem estimate_mate_monotonic_witness :
    difficulty_rank (estimate_difficulty 9999 (.scoreObject ⟨true, some 1⟩) none
        (fun _ _ _ _ => none)).1 ≤
      difficulty_rank (estimate_difficulty 9999 (.scoreObject ⟨true, some (-2)⟩) none
        (fun _ _ _ _ => none)).1 ∧
    difficulty_rank (estimate_difficulty 9999 (.scoreObject ⟨true, some (-2)⟩) none
        (fun _ _ _ _ => none)).1 ≤
      difficulty_rank (estimate_difficulty 9999 (.scoreObject ⟨true, some 5⟩) none
        (fun _ _ _ _ => none)).1 ∧
    (estimate_difficulty 9999 (.scoreObject ⟨true, some 1⟩) none
        (fun _ _ _ _ => none)).1 =
      (if 500 < (9999 : Int).natAbs then "beginner" else "intermediate") ∧
    (estimate_difficulty 9999 (.scoreObject ⟨true, some (-2)⟩) none
        (fun _ _ _ _ => none)).1 = "intermediate" ∧
    (estimate_difficulty 9999 (.scoreObject ⟨true, some 5⟩) none
        (fun _ _ _ _ => none)).1 = "advanced" :=
  estimate_mate_monotonic 9999 9999 9999 _ _ _ none none none _ _ _
    ⟨true, some 1⟩ ⟨true, some (-2)⟩ ⟨true, some 5⟩ 1 (-2) 5
    (fun b h => by cases h) (fun b h => by cases h) (fun b h => by cases h)
    rfl rfl rfl (by decide) rfl rfl rfl (by decide) rfl rfl rfl (by decide)

/-! ## C6: unexpected metadata shape falls back to score banding -/

/-- C6: for every score and an `info` argument of unexpected shape
(neither a mapping with a score entry nor a score object), the
estimator returns one of the three difficulty labels (it never fails),
and — whenever the priority-1 checkmate test does not fire — it falls
back to banding on the absolute score alone and logs a warning. -/
theorem estimate_unexpected_info (score : Int) (fen : Option Position)
    (evalFn : String → Rat → Nat → Nat → Option (Option Int)) :
    ((estimate_difficulty score .other fen evalFn).1 = "beginner" ∨
     (estimate_difficulty score .other fen evalFn).1 = "intermediate" ∨
     (estimate_difficulty score .other fen evalFn).1 = "advanced") ∧
    ((∀ b, fen = some b → b.is_checkmate = false) →
      estimate_difficulty score .other fen evalFn =
        (score_band_fallback score, true)) := by
  constructor
  · unfold estimate_difficulty estimate_core score_band_fallback
    split_ifs <;> simp
  · intro h
    rw [estimate_not_checkmate score .other fen evalFn h]
    rfl

/-- Witness for C6 at score 700 and no position. -/
theorem estimate_unexpected_info_witness :
    estimate_difficulty 700 .other none (fun _ _ _ _ => none) =
      (score_band_fallback 700, true) :=
  (estimate_unexpected_info 700 none (fun _ _ _ _ => none)).2 (fun b h => by cases h)

/-! ## C9: tag-set and primary-tag normalization of practice items -/

/-- C9 amended: `PuzzleExample.__post_init__` leaves the tag set
unchanged — in particular an item with no tags keeps an empty tag set,
and no generic "tactics" tag is ever added (the generic word only
appears in the fallback explanation text) — and when the tag set is
non-empty and the primary tag is unset (falsy), the primary tag becomes
the first tag. -/
theorem puzzle_tags_normalization (p : PuzzleExample) :
    (p.post_init).themes = p.themes ∧
    (∀ t ts, p.themes = t :: ts → py_truthy_opt p.primary_theme = false →
      (p.post_init).primary_theme = some t) := by
  constructor
  · unfold PuzzleExample.post_init
    rcases hthemes : p.themes with _ | ⟨t, ts⟩ <;>
      rcases htr : py_truthy_opt p.primary_theme <;>
        simp [hthemes, htr] <;> split_ifs <;> simp [hthemes]
  · intro t ts ht htruthy
    unfold PuzzleExample.post_init
    simp only [ht, htruthy]
    split_ifs <;> rfl

/-- A practice item carrying no tags at all. -/
def puzzle_no_tags : PuzzleExample :=
  { id := "q1", fen := "8/8/8/8/8/8/8/8 w - - 0 1", solution_moves := [],
    themes := [], rating := 1500, quality_score := 1 }

/-- C9 counterexample: after normalization the item still has an empty
tag set and no primary tag — the claimed fallback to a generic
"tactics" tag does not exist in `PuzzleExample.__post_init__` (nor in
`ExampleSelector._db_result_to_puzzle_example`, which passes the
database theme list through unchanged). -/
theorem puzzle_tags_normalization_cex :
    (puzzle_no_tags.post_init).themes = [] ∧
    (puzzle_no_tags.post_init).primary_theme = none := by
  constructor <;> rfl

/-- A practice item with tags but no explicit primary tag. -/
def puzzle_with_tags : PuzzleExample :=
  { id := "q2", fen := "k7/8/8/8/8/8/8/K7 w - - 0 1", solution_moves := ["a1a2"],
    themes := ["pin", "fork"], rating := 1400, quality_score := 1 }

/-- Witness for C9. -/
theorem puzzle_tags_normalization_witness :
    (puzzle_with_tags.post_init).themes = puzzle_with_tags.themes ∧
    (puzzle_with_tags.post_init).primary_theme = some "pin" :=
  ⟨(puzzle_tags_normalization puzzle_with_tags).1,
   (puzzle_tags_normalization puzzle_with_tags).2 "pin" ["fork"] rfl (by decide)⟩

/-! ## C10: lessons are renumbered consecutively from 1 -/

theorem renumber_steps_get (l : List LessonStep) :
    ∀ (i j : Nat) (s : LessonStep),
      (renumber_steps i l).get? j = some s → s.step_number = i + j := by
  induction l with
  | nil => intro i j s hs; simp [renumber_steps] at hs
  | cons head tail ih =>
      intro i j s hs
      cases j with
      | zero =>
          simp only [renumber_steps, List.get?] at hs
          split_ifs at hs with hcond
          · cases hs
            simp
          · cases hs
            simp only [ne_eq, not_not] at hcond
            omega
      | succ j =>
          simp only [renumber_steps, List.get?] at hs
          have := ih (i + 1) j s hs
          omega

theorem post_init_step_number (l : ChessLesson) (i : Nat) (s : LessonStep)
    (hs : (ChessLesson.post_init l).steps.get? i = some s) :
    s.step_number = i + 1 := by
  have hsteps : (ChessLesson.post_init l).steps = renumber_steps 1 l.steps := by
    unfold ChessLesson.post_init
    dsimp only
    split_ifs <;> rfl
  rw [hsteps] at hs
  have := renumber_steps_get l.steps 1 i s hs
  omega

/-- C10: whatever step numbers the steps carried going in, after
construction the i-th step (1-based) of a lesson has `step_number = i`;
in particular every lesson `build_lesson` returns is consecutively
numbered from 1. -/
theorem lesson_step_numbers (l : ChessLesson) (i : Nat) :
    (∀ s, (ChessLesson.post_init l).steps.get? i = some s → s.step_number = i + 1) ∧
    (∀ gen introduction summary config examples lesson,
      build_lesson gen introduction summary config examples = some lesson →
      ∀ s, lesson.steps.get? i = some s → s.step_number = i + 1) := by
  constructor
  · intro s hs
    exact post_init_step_number l i s hs
  · intro gen introduction summary config examples lesson hb s hs
    unfold build_lesson at hb
    dsimp only at hb
    split_ifs at hb with h1 h2
    rw [Option.some.injEq] at hb
    subst hb
    exact post_init_step_number _ i s hs

/-- A lesson whose two steps carry wrong step numbers. -/
def lesson_wrong_numbers : ChessLesson :=
  { title := "T", theme := "pin", difficulty := .intermediate,
    introduction := "I", summary := "S",
    steps :=
      [{ step_type := .example, title := "a", content := "b", step_number := 7 },
       { step_type := .solution, title := "c", content := "d", step_number := 0 }],
    metadata :=
      { example_count := 1, avg_rating := 1400, avg_quality_score := 1,
        estimated_duration_minutes := 8, themes_covered := ["pin"],
        includes_analysis := true, progressive_difficulty := true } }

/-- A placeholder step used only to read list elements totally. -/
def dummy_step : LessonStep :=
  { step_type := .example, title := "x", content := "y" }

/-- A placeholder lesson used only to read an optional result totally. -/
def dummy_lesson : ChessLesson :=
  { title := "x", theme := "pin", difficulty := .intermediate,
    introduction := "y", summary := "z", steps := [],
    metadata :=
      { example_count := 0, avg_rating := 0, avg_quality_score := 0,
        estimated_duration_minutes := 0, themes_covered := [],
        includes_analysis := true, progressive_difficulty := true } }

/-- A content generator that always produces usable text. -/
def gen_ok : PuzzleExample → StepType → String :=
  fun _ _ => "Some generated study content for this step."

/-- The configuration used by the concrete builder runs. -/
def config_fork : LessonGenerationConfig := { theme := "fork" }

/-- A concrete successful `build_lesson` run. -/
def lesson_built : ChessLesson :=
  (build_lesson gen_ok "An introduction." "A summary." config_fork
    [puzzle_with_tags]).getD dummy_lesson

/-- Witness for C10: the renumbering at index 1 of a mis-numbered
lesson, and at index 0 of a lesson actually returned by the builder. -/
theorem lesson_step_numbers_witness :
    ((ChessLesson.post_init lesson_wrong_numbers).steps.getD 1 dummy_step).step_number =
      1 + 1 ∧
    (lesson_built.steps.getD 0 dummy_step).step_number = 0 + 1 :=
  ⟨(lesson_step_numbers lesson_wrong_numbers 1).1 _ rfl,
   (lesson_step_numbers dummy_lesson 0).2 gen_ok "An introduction." "A summary."
     config_fork [puzzle_with_tags] lesson_built rfl _ rfl⟩

/-! ## C7: step order keys emitted by the assembler -/

theorem build_steps_from_orders (gen : PuzzleExample → StepType → String)
    (config : LessonGenerationConfig) :
    ∀ (l : List PuzzleExample) (i : Nat),
      (build_steps_from gen config i l).map (fun s => (s.step_type, s.order)) =
        (List.range' i l.length).flatMap (fun j =>
          if config.include_analysis then
            [(StepType.example, j * 3 + 1), (StepType.solution, j * 3 + 2),
             (StepType.analysis, j * 3 + 3)]
          else
            [(StepType.example, j * 2 + 1), (StepType.solution, j * 2 + 2)]) := by
  intro l
  induction l with
  | nil => intro i; rfl
  | cons ex rest ih =>
      intro i
      simp only [build_steps_from, List.length_cons, List.range'_succ, List.flatMap_cons,
        List.map_append, ih (i + 1)]
      cases h : config.include_analysis <;>
        simp [h, create_example_step, create_solution_step, create_analysis_step]

/-- C7: per selected item at 0-based index i the assembler emits order
keys presentation = 3i+1, solution = 3i+2, analysis = 3i+3 when
analysis is requested, and presentation = 2i+1, solution = 2i+2
otherwise; for 3 items with analysis the lesson has 9 steps with order
keys exactly 1..9 and metadata example count 3. -/
theorem builder_order_keys (gen : PuzzleExample → StepType → String)
    (config : LessonGenerationConfig) (examples : List PuzzleExample) :
    (config.include_analysis = true →
      (build_lesson_steps gen config examples).map (fun s => (s.step_type, s.order)) =
        (List.range examples.length).flatMap (fun i =>
          [(StepType.example, 3 * i + 1), (StepType.solution, 3 * i + 2),
           (StepType.analysis, 3 * i + 3)])) ∧
    (config.include_analysis = false →
      (build_lesson_steps gen config examples).map (fun s => (s.step_type, s.order)) =
        (List.range examples.length).flatMap (fun i =>
          [(StepType.example, 2 * i + 1), (StepType.solution, 2 * i + 2)])) ∧
    (config.include_analysis = true → examples.length = 3 →
      (build_lesson_steps gen config examples).map (fun s => s.order) =
        [1, 2, 3, 4, 5, 6, 7, 8, 9] ∧
      (create_lesson_metadata config examples).example_count = 3) := by
  have hbase := build_steps_from_orders gen config examples 0
  rw [← List.range_eq_range'] at hbase
  refine ⟨?_, ?_, ?_⟩
  · intro h
    rw [build_lesson_steps, hbase]
    simp [h, Nat.mul_comm]
  · intro h
    rw [build_lesson_steps, hbase]
    simp [h, Nat.mul_comm]
  · intro h hlen
    constructor
    · have hmap : (build_lesson_steps gen config examples).map (fun s => s.order) =
          ((build_lesson_steps gen config examples).map
            (fun s => (s.step_type, s.order))).map Prod.snd := by
        simp
      rw [hmap, build_lesson_steps, hbase, hlen]
      simp only [h, if_true]
      decide
    · simp [create_lesson_metadata, hlen]

/-- Three practice items for the concrete assembler run. -/
def examples_three : List PuzzleExample :=
  [puzzle_with_tags, { puzzle_with_tags with id := "q3", rating := 1500 },
   { puzzle_with_tags with id := "q4", rating := 1600 }]

/-- Witness for C7: 3 items with analysis give order keys 1..9 and
example count 3. -/
theorem builder_order_keys_witness :
    (build_lesson_steps gen_ok config_fork examples_three).map (fun s => s.order) =
      [1, 2, 3, 4, 5, 6, 7, 8, 9] ∧
    (create_lesson_metadata config_fork examples_three).example_count = 3 :=
  (builder_order_keys gen_ok config_fork examples_three).2.2 rfl (by decide)

/-! ## C1: the decisive-advantage uniqueness probe -/

theorem count_winning_moves_total
    (evalFn : String → Rat → Nat → Nat → Option (Option Int)) :
    ∀ (fens : List String), (∀ f ∈ fens, evalFn f 1 10 1 ≠ none) →
      count_winning_moves evalFn fens =
        some (fens.countP fun f => is_winning_probe ((evalFn f 1 10 1).join)) := by
  intro fens
  induction fens with
  | nil => intro _; rfl
  | cons f fs ih =>
      intro h
      obtain ⟨mv, hmv⟩ := Option.ne_none_iff_exists'.mp (h f (by simp))
      have hrest := ih fun g hg => h g (List.mem_cons_of_mem _ hg)
      simp [count_winning_moves, hmv, hrest, List.countP_cons]

/-- C1 amended: for a position with no forced mate whose absolute score
exceeds the decisive threshold (1000), the estimator probes every legal
reply at the fixed cheap budget (`time_limit = 1.0`, `min_depth = 10`,
`line_count = 1`) through the non-recursive oracle entry point, and
counts the replies whose white-perspective probe score is greater than
1000 (a signed comparison, not an absolute one): exactly one such reply
gives advanced, at most three (including zero) give intermediate, and
more than three give beginner. -/
theorem estimate_uniqueness_probe (score : Int) (info : EvalInfo) (b : Position)
    (evalFn : String → Rat → Nat → Nat → Option (Option Int))
    (hcm : b.is_checkmate = false) (hother : info ≠ .other)
    (hmate : info_is_mate info = false) (hdec : 1000 < score.natAbs)
    (htotal : ∀ f ∈ b.reply_fens, evalFn f 1 10 1 ≠ none) :
    (estimate_difficulty score info (some b) evalFn).1 =
      (if (b.reply_fens.countP fun f => is_winning_probe ((evalFn f 1 10 1).join)) = 1
        then "advanced"
       else if (b.reply_fens.countP fun f =>
          is_winning_probe ((evalFn f 1 10 1).join)) ≤ 3
        then "intermediate"
       else "beginner") := by
  have hnc : estimate_difficulty score info (some b) evalFn =
      estimate_core score info (some b) evalFn :=
    estimate_not_checkmate score info (some b) evalFn
      (fun b2 h => by injection h with h; rw [← h]; exact hcm)
  have hcore : estimate_core score info (some b) evalFn =
      estimate_no_mate score (some b) evalFn := by
    cases hio : info with
    | other => exact absurd hio hother
    | dictWithScore so? =>
        cases so? with
        | none => rfl
        | some so =>
            have hm : so.is_mate = false := by
              rw [hio] at hmate
              simpa [info_is_mate, info_score_obj] using hmate
            simp [estimate_core, estimate_with_score_obj, hm]
    | scoreObject so =>
        have hm : so.is_mate = false := by
          rw [hio] at hmate
          simpa [info_is_mate, info_score_obj] using hmate
        simp [estimate_core, estimate_with_score_obj, hm]
  rw [hnc, hcore]
  unfold estimate_no_mate
  simp only [hdec, if_true]
  rw [count_winning_moves_total evalFn b.reply_fens htotal]
  dsimp only
  split_ifs <;> rfl

/-- A probe oracle reporting a decisive Black advantage for every reply. -/
def probe_black_win : String → Rat → Nat → Nat → Option (Option Int) :=
  fun _ _ _ _ => some (some (-1500))

/-- A non-checkmate position with four legal replies. -/
def position_four_replies : Position :=
  { is_checkmate := false, reply_fens := ["r1", "r2", "r3", "r4"] }

/-- C1 counterexample: at a Black-winning position (score −1500, so the
absolute score exceeds the decisive threshold) with four legal replies
each probing to −1500, all four replies are decisive in the sense of
the absolute-score threshold, so the claim requires "beginner"
(more than 3 decisive replies); but the source counts `mv_score > 1000`
with the signed white-perspective score, finds 0, and returns
"intermediate". -/
theorem estimate_uniqueness_probe_cex :
    position_four_replies.reply_fens.countP
        (is_decisive_reply_abs probe_black_win) = 4 ∧
    (estimate_difficulty (-1500) (.scoreObject ⟨false, none⟩)
        (some position_four_replies) probe_black_win).1 = "intermediate" ∧
    ("intermediate" : String) ≠ "beginner" :=
  ⟨by decide, by decide, by decide⟩

/-- A probe oracle reporting a decisive White advantage for every reply. -/
def probe_white_win : String → Rat → Nat → Nat → Option (Option Int) :=
  fun _ _ _ _ => some (some 1500)

/-- A non-checkmate position with two legal replies. -/
def position_two_replies : Position :=
  { is_checkmate := false, reply_fens := ["s1", "s2"] }

/-- Witness for C1 at a position with two winning replies. -/
theorem estimate_uniqueness_probe_witness :
    (estimate_difficulty 1500 (.scoreObject ⟨false, none⟩)
        (some position_two_replies) probe_white_win).1 =
      (if (position_two_replies.reply_fens.countP fun f =>
            is_winning_probe ((probe_white_win f 1 10 1).join)) = 1
        then "advanced"
       else if (position_two_replies.reply_fens.countP fun f =>
          is_winning_probe ((probe_white_win f 1 10 1).join)) ≤ 3
        then "intermediate"
       else "beginner") :=
  estimate_uniqueness_probe 1500 (.scoreObject ⟨false, none⟩) position_two_replies
    probe_white_win rfl (by decide) rfl (by decide)
    (fun f _ => by simp [probe_white_win])

/-! ## C2: cache round trip and TTL expiry -/

theorem dict_lookup_insert {K V : Type} [DecidableEq K] (k : K) (v : V) :
    ∀ (l : List (K × V)), dict_lookup k (dict_insert k v l) = some v := by
  intro l
  induction l with
  | nil => simp [dict_insert, dict_lookup]
  | cons kv rest ih =>
      by_cases h : kv.1 = k
      · simp [dict_insert, dict_lookup, h]
      · simpa [dict_insert, dict_lookup, h] using ih

theorem dict_erase_length {K V : Type} [DecidableEq K] (k : K) :
    ∀ (l : List (K × V)) (e : V), dict_lookup k l = some e →
      (dict_erase k l).length + 1 = l.length := by
  intro l
  induction l with
  | nil => intro e he; simp [dict_lookup] at he
  | cons kv rest ih =>
      intro e he
      by_cases h : kv.1 = k
      · simp [dict_erase, h]
      · simp only [dict_lookup, h, if_false] at he
        simpa [dict_erase, h] using ih e he

theorem dict_lookup_of_not_mem_keys {K V : Type} [DecidableEq K] (k : K) :
    ∀ (l : List (K × V)), k ∉ l.map Prod.fst → dict_lookup k l = none := by
  intro l
  induction l with
  | nil => intro _; rfl
  | cons kv rest ih =>
      intro h
      simp only [List.map_cons, List.mem_cons, not_or] at h
      have : kv.1 ≠ k := fun he => h.1 he.symm
      simpa [dict_lookup, this] using ih h.2

theorem dict_lookup_erase {K V : Type} [DecidableEq K] (k : K) :
    ∀ (l : List (K × V)), (l.map Prod.fst).Nodup →
      dict_lookup k (dict_erase k l) = none := by
  intro l
  induction l with
  | nil => intro _; rfl
  | cons kv rest ih =>
      intro hnd
      simp only [List.map_cons, List.nodup_cons] at hnd
      by_cases h : kv.1 = k
      · subst h
        simpa [dict_erase] using dict_lookup_of_not_mem_keys kv.1 rest hnd.1
      · simpa [dict_erase, dict_lookup, h] using ih hnd.2

/-- C2: storing a result and immediately reading it back with the same
four parameters returns exactly the stored (score, mate, metadata)
triple (the metadata as stored, i.e. its serializable copy); and once
the age of an entry reaches the max age, `get` returns absent, removes
the entry from the map, and the subsequent statistics count one fewer
cached position. -/
theorem cache_roundtrip_expiry (c : PositionCache) (fen : String) (tl : Rat)
    (md mpv : Int) (score mate : Option Int) (info : List (String × PyVal))
    (now now2 : Int) :
    (0 < c.max_age_seconds →
      ((c.set fen tl md mpv score mate info now).get fen tl md mpv now).1 =
        some (score, mate, serialize_info info)) ∧
    (∀ e, dict_lookup (generate_key fen tl md mpv) c.cache = some e →
      c.max_age_seconds ≤ now2 - e.timestamp →
      (c.cache.map Prod.fst).Nodup →
      (c.get fen tl md mpv now2).1 = none ∧
      dict_lookup (generate_key fen tl md mpv)
        ((c.get fen tl md mpv now2).2.cache) = none ∧
      ((c.get fen tl md mpv now2).2.get_stats.cached_positions) + 1 =
        c.get_stats.cached_positions) := by
  constructor
  · intro hpos
    unfold PositionCache.set PositionCache.get
    dsimp only
    rw [dict_lookup_insert]
    have : now - now < c.max_age_seconds := by omega
    simp [this, hpos]
  · intro e he hage hnd
    unfold PositionCache.get
    dsimp only
    rw [he]
    have hlt : ¬ (now2 - e.timestamp < c.max_age_seconds) := by omega
    refine ⟨?_, ?_, ?_⟩
    · simp [hlt]
    · simp only [hlt, if_false]
      exact dict_lookup_erase _ c.cache hnd
    · have hlen := dict_erase_length (generate_key fen tl md mpv) c.cache e he
      simp only [hlt, if_false, PositionCache.get_stats]
      simpa using hlen

/-- An empty cache with a max age of 1 tick. -/
def cache_empty : PositionCache :=
  { cache := [], hits := 0, misses := 0, max_age_seconds := 1 }

/-- A sample metadata dict. -/
def info_sample : List (String × PyVal) := [("depth", PyVal.jsonOk "25")]

/-- The cache after one `set` at time 0. -/
def cache_one : PositionCache :=
  cache_empty.set "fenA" 3 25 3 (some 50) none info_sample 0

/-- The entry stored by that `set`. -/
def entry_one : CacheEntry :=
  { fen := "fenA", score := some 50, mate := none,
    info := [("depth", PyVal.jsonOk "25")], timestamp := 0 }

/-- Witness for C2: a round trip at time 0, and an expired `get` at
time 2 against a 1-tick max age. -/
theorem cache_roundtrip_expiry_witness :
    ((cache_empty.set "fenA" 3 25 3 (some 50) none info_sample 0).get
        "fenA" 3 25 3 0).1 = some (some 50, none, serialize_info info_sample) ∧
    ((cache_one.get "fenA" 3 25 3 2).1 = none ∧
      dict_lookup (generate_key "fenA" 3 25 3)
        ((cache_one.get "fenA" 3 25 3 2).2.cache) = none ∧
      ((cache_one.get "fenA" 3 25 3 2).2.get_stats.cached_positions) + 1 =
        cache_one.get_stats.cached_positions) :=
  ⟨(cache_roundtrip_expiry cache_empty "fenA" 3 25 3 (some 50) none info_sample
      0 2).1 (by decide),
   (cache_roundtrip_expiry cache_one "fenA" 3 25 3 (some 50) none info_sample
      0 2).2 entry_one rfl (by decide) (by decide)⟩

/-! ## C8: degraded generator output and the validity check -/

/-- C8 amended: the validity check `validate_content` does fail on
degraded output — text whose stripped length is below 20 characters,
or text containing a phrase of the fixed refusal list — but the
assembler never invokes it: `_generate_ai_content` returns any
response whose stripped length exceeds 20 characters verbatim
(refusals included), and the step builders insert the generator output
into the step content unchanged.  The deterministic fallback templates
are used only when generation raises. -/
theorem refusal_validity_and_passthrough (content r phrase : String)
    (gen : PuzzleExample → StepType → String) (ex : PuzzleExample)
    (i : Nat) (config : LessonGenerationConfig) :
    ((py_strip content).length < 20 → validate_content content = false) ∧
    (phrase ∈ problematic_phrases →
      chars_contains_sub (py_lower content).data (py_lower phrase).data = true →
      validate_content content = false) ∧
    (r ≠ "" → 20 < (py_strip r).length →
      generate_ai_content true (some (some r)) = py_strip r) ∧
    (config.include_analysis = true →
      (create_example_step gen ex i config).content = gen ex .example ∧
      (create_solution_step gen ex i config).content = gen ex .solution ∧
      (create_analysis_step gen ex i config).content = gen ex .analysis) := by
  refine ⟨?_, ?_, ?_, ?_⟩
  · intro hlen
    unfold validate_content
    simp [hlen]
  · intro hp hc
    unfold validate_content
    split_ifs with h1 h2
    · rfl
    · rfl
    · exact absurd (List.any_eq_true.mpr ⟨phrase, hp, hc⟩) (by simpa using h2)
  · intro h1 h2
    unfold generate_ai_content
    simp [h1, h2]
  · intro h
    unfold create_example_step create_solution_step create_analysis_step
    simp [h]

/-- The refusal message of the spec scenario. -/
def refusal_msg : String := "I\x27m sorry, I cannot help with that"

/-- The configuration for the refusal scenario (analysis enabled). -/
def config_pin : LessonGenerationConfig := { theme := "pin" }

/-- A generator whose AI provider returns the refusal message. -/
def refusal_gen : PuzzleExample → StepType → String :=
  fun _ _ => generate_ai_content true (some (some refusal_msg))

/-- C8 counterexample: the generator returns a refusal phrase longer
than 20 characters; `validate_content` rejects it, yet the assembled
analysis step carries the refusal text verbatim instead of the
deterministic fallback template — no component between the generator
and the lesson invokes the validity check. -/
theorem refusal_not_substituted_cex :
    validate_content refusal_msg = false ∧
    (create_analysis_step refusal_gen puzzle_with_tags 0 config_pin).content =
      refusal_msg ∧
    refusal_msg ≠ fallback_step_content puzzle_with_tags .analysis :=
  ⟨by decide, by decide, by decide⟩

/-- Witness for C8. -/
theorem refusal_validity_and_passthrough_witness :
    validate_content "too short" = false ∧
    validate_content refusal_msg = false ∧
    generate_ai_content true (some (some refusal_msg)) = py_strip refusal_msg ∧
    (create_analysis_step refusal_gen puzzle_with_tags 0 config_pin).content =
      refusal_gen puzzle_with_tags .analysis :=
  ⟨(refusal_validity_and_passthrough "too short" "x" "x" refusal_gen
      puzzle_with_tags 0 config_pin).1 (by decide),
   (refusal_validity_and_passthrough refusal_msg "x" "I\x27m sorry" refusal_gen
      puzzle_with_tags 0 config_pin).2.1 (by decide) (by decide),
   (refusal_validity_and_passthrough "x" refusal_msg "x" refusal_gen
      puzzle_with_tags 0 config_pin).2.2.1 (by decide) (by decide),
   ((refusal_validity_and_passthrough "x" "x" "x" refusal_gen
      puzzle_with_tags 0 config_pin).2.2.2 rfl).2.2⟩

/-! ## C4: selection size bound and id distinctness -/

theorem sort_by_score_perm (config : LessonGenerationConfig)
    (l : List PuzzleExample) : (sort_by_score_desc config l).Perm l :=
  List.mergeSort_perm l _

theorem sort_by_rating_perm (l : List PuzzleExample) :
    (sort_by_rating l).Perm l :=
  List.mergeSort_perm l _

theorem pick_from_bucket_mem (config : LessonGenerationConfig) (i : Nat)
    (bucket : List PuzzleExample) (x : PuzzleExample)
    (hx : x ∈ pick_from_bucket config i bucket) : x ∈ bucket := by
  unfold pick_from_bucket at hx
  split_ifs at hx with h
  · simp at hx
  · exact (sort_by_score_perm config bucket).mem_iff.mp
      ((List.take_sublist _ _).subset hx)

theorem pick_from_bucket_nodup (config : LessonGenerationConfig) (i : Nat)
    (bucket : List PuzzleExample) (h : bucket.Nodup) :
    (pick_from_bucket config i bucket).Nodup := by
  unfold pick_from_bucket
  split_ifs with hb
  · exact List.nodup_nil
  · exact List.Nodup.sublist (List.take_sublist _ _)
      ((sort_by_score_perm config bucket).symm.nodup h)

theorem buckets_disjoint (mn mx : Int) (c : PuzzleExample) :
    (in_easy_bucket mn mx c && in_medium_bucket mn mx c) = false ∧
    (in_easy_bucket mn mx c && in_hard_bucket mn mx c) = false ∧
    (in_medium_bucket mn mx c && in_hard_bucket mn mx c) = false := by
  rcases h1 : in_easy_bucket mn mx c <;>
    rcases h2 : decide (rating_position c.rating mn mx < mkRat 67 100) <;>
      simp [in_medium_bucket, in_hard_bucket, h1, h2]

theorem progressive_base_nodup (config : LessonGenerationConfig) (mn mx : Int)
    (candidates : List PuzzleExample) (h : candidates.Nodup) :
    (progressive_base config mn mx candidates).Nodup := by
  unfold progressive_base
  have hpe := pick_from_bucket_nodup config 0 _ (h.filter (in_easy_bucket mn mx))
  have hpm := pick_from_bucket_nodup config 1 _ (h.filter (in_medium_bucket mn mx))
  have hph := pick_from_bucket_nodup config 2 _ (h.filter (in_hard_bucket mn mx))
  have memE : ∀ x, x ∈ pick_from_bucket config 0
      (candidates.filter (in_easy_bucket mn mx)) → in_easy_bucket mn mx x = true :=
    fun x hx => (List.mem_filter.mp (pick_from_bucket_mem _ _ _ _ hx)).2
  have memM : ∀ x, x ∈ pick_from_bucket config 1
      (candidates.filter (in_medium_bucket mn mx)) → in_medium_bucket mn mx x = true :=
    fun x hx => (List.mem_filter.mp (pick_from_bucket_mem _ _ _ _ hx)).2
  have memH : ∀ x, x ∈ pick_from_bucket config 2
      (candidates.filter (in_hard_bucket mn mx)) → in_hard_bucket mn mx x = true :=
    fun x hx => (List.mem_filter.mp (pick_from_bucket_mem _ _ _ _ hx)).2
  rw [List.nodup_append]
  refine ⟨?_, hph, ?_⟩
  · rw [List.nodup_append]
    refine ⟨hpe, hpm, ?_⟩
    intro x hxe hxm
    have := (buckets_disjoint mn mx x).1
    rw [memE x hxe, memM x hxm] at this
    simp at this
  · intro x hx hxh
    have hh := memH x hxh
    rcases List.mem_append.mp hx with hxe | hxm
    · have := (buckets_disjoint mn mx x).2.1
      rw [memE x hxe, hh] at this
      simp at this
    · have := (buckets_disjoint mn mx x).2.2
      rw [memM x hxm, hh] at this
      simp at this

theorem progressive_base_subset (config : LessonGenerationConfig) (mn mx : Int)
    (candidates : List PuzzleExample) (x : PuzzleExample)
    (hx : x ∈ progressive_base config mn mx candidates) : x ∈ candidates := by
  unfold progressive_base at hx
  rcases List.mem_append.mp hx with hx2 | hxh
  · rcases List.mem_append.mp hx2 with hxe | hxm
    · exact List.filter_sublist _ |>.subset (pick_from_bucket_mem _ _ _ _ hxe)
    · exact List.filter_sublist _ |>.subset (pick_from_bucket_mem _ _ _ _ hxm)
  · exact List.filter_sublist _ |>.subset (pick_from_bucket_mem _ _ _ _ hxh)

theorem progressive_filled_nodup (config : LessonGenerationConfig) (mn mx : Int)
    (candidates : List PuzzleExample) (h : candidates.Nodup) :
    (progressive_filled config mn mx candidates).Nodup := by
  unfold progressive_filled
  dsimp only
  split_ifs with hlen
  · rw [List.nodup_append]
    refine ⟨progressive_base_nodup config mn mx candidates h, ?_, ?_⟩
    · exact List.Nodup.sublist (List.take_sublist _ _)
        ((sort_by_score_perm config _).symm.nodup (h.filter _))
    · intro x hxb hxa
      have hxr : x ∈ candidates.filter
          (fun c => decide (c ∉ progressive_base config mn mx candidates)) :=
        (sort_by_score_perm config _).mem_iff.mp
          ((List.take_sublist _ _).subset hxa)
      have := (List.mem_filter.mp hxr).2
      simp only [decide_eq_true_eq] at this
      exact this hxb
  · exact progressive_base_nodup config mn mx candidates h

theorem progressive_filled_subset (config : LessonGenerationConfig) (mn mx : Int)
    (candidates : List PuzzleExample) (x : PuzzleExample)
    (hx : x ∈ progressive_filled config mn mx candidates) : x ∈ candidates := by
  unfold progressive_filled at hx
  dsimp only at hx
  split_ifs at hx with hlen
  · rcases List.mem_append.mp hx with hxb | hxa
    · exact progressive_base_subset config mn mx candidates x hxb
    · exact List.filter_sublist _ |>.subset
        ((sort_by_score_perm config _).mem_iff.mp
          ((List.take_sublist _ _).subset hxa))
  · exact progressive_base_subset config mn mx candidates x hx

theorem nodup_ids_of (candidates result : List PuzzleExample)
    (hids : (candidates.map PuzzleExample.id).Nodup)
    (hnd : result.Nodup) (hsub : ∀ x ∈ result, x ∈ candidates) :
    (result.map PuzzleExample.id).Nodup :=
  List.Nodup.map_on
    (fun x hx y hy hxy =>
      List.inj_on_of_nodup_map hids (hsub x hx) (hsub y hy) hxy) hnd

/-- C4 amended: both selection strategies return at most the requested
item count; and whenever the candidate records returned by the
repository carry pairwise-distinct ids, the selected list also has
pairwise-distinct ids.  (Without that proviso duplicate ids pass
through unchanged — see the counterexample.) -/
theorem selector_bounds (config : LessonGenerationConfig) (mn mx : Int)
    (candidates : List PuzzleExample) :
    (select_best_examples config candidates).length ≤ config.example_count ∧
    (select_progressive_examples config mn mx candidates).length ≤
      config.example_count ∧
    ((candidates.map PuzzleExample.id).Nodup →
      ((select_best_examples config candidates).map PuzzleExample.id).Nodup ∧
      ((select_progressive_examples config mn mx candidates).map
        PuzzleExample.id).Nodup) := by
  refine ⟨?_, ?_, ?_⟩
  · unfold select_best_examples
    split_ifs with h
    · exact h
    · exact List.length_take_le _ _
  · unfold select_progressive_examples
    split_ifs with h
    · calc (sort_by_rating candidates).length = candidates.length := by
            simp [sort_by_rating]
        _ ≤ _ := h
    · exact List.length_take_le _ _
  · intro hids
    have hcand : candidates.Nodup := List.Nodup.of_map _ hids
    constructor
    · unfold select_best_examples
      split_ifs with h
      · exact hids
      · refine nodup_ids_of candidates _ hids ?_ ?_
        · exact List.Nodup.sublist (List.take_sublist _ _)
            ((sort_by_score_perm config candidates).symm.nodup hcand)
        · exact fun x hx => (sort_by_score_perm config candidates).mem_iff.mp
            ((List.take_sublist _ _).subset hx)
    · unfold select_progressive_examples
      split_ifs with h
      · exact ((sort_by_rating_perm candidates).map PuzzleExample.id).symm.nodup hids
      · refine nodup_ids_of candidates _ hids ?_ ?_
        · exact List.Nodup.sublist (List.take_sublist _ _)
            ((sort_by_rating_perm _).symm.nodup
              (progressive_filled_nodup config mn mx candidates hcand))
        · exact fun x hx => progressive_filled_subset config mn mx candidates x
            ((sort_by_rating_perm _).mem_iff.mp
              ((List.take_sublist _ _).subset hx))

/-- A candidate record with id `p1`. -/
def puzzle_dup_a : PuzzleExample :=
  { id := "p1", fen := "f1", solution_moves := [], themes := ["pin"],
    rating := 1300, quality_score := 1 }

/-- A distinct candidate record carrying the same id `p1`. -/
def puzzle_dup_b : PuzzleExample :=
  { id := "p1", fen := "f2", solution_moves := [], themes := ["pin"],
    rating := 1700, quality_score := 1 }

/-- A candidate record with id `p2`. -/
def puzzle_uniq_c : PuzzleExample :=
  { id := "p2", fen := "f3", solution_moves := [], themes := ["pin"],
    rating := 1250, quality_score := 1 }

/-- The two-item request of the duplicate-id scenario. -/
def config_two : LessonGenerationConfig := { theme := "pin", example_count := 2 }

/-- C4 counterexample: when the repository returns two distinct records
sharing one id, the flat strategy returns both — the selector performs
no id-based de-duplication, so the claim that the returned list never
contains two items with the same id fails. -/
theorem selector_duplicate_ids_cex :
    select_best_examples config_two [puzzle_dup_a, puzzle_dup_b] =
      [puzzle_dup_a, puzzle_dup_b] ∧
    puzzle_dup_a.id = puzzle_dup_b.id ∧
    puzzle_dup_a ≠ puzzle_dup_b ∧
    ¬ ((select_best_examples config_two [puzzle_dup_a, puzzle_dup_b]).map
        PuzzleExample.id).Nodup :=
  ⟨rfl, rfl, by decide, by decide⟩

/-- Witness for C4 on candidates with distinct ids. -/
theorem selector_bounds_witness :
    (select_best_examples config_two [puzzle_dup_a, puzzle_uniq_c]).length ≤ 2 ∧
    ((select_progressive_examples config_two 1200 1800
        [puzzle_dup_a, puzzle_uniq_c]).map PuzzleExample.id).Nodup :=
  ⟨(selector_bounds config_two 1200 1800 [puzzle_dup_a, puzzle_uniq_c]).1,
   ((selector_bounds config_two 1200 1800 [puzzle_dup_a, puzzle_uniq_c]).2.2
      (by decide)).2⟩

end CaissifyEngine
